import Mathlib

/-!
Shallow embedding of the GravityPulse backend (Express + Supabase cache +
RPC/explorer fallback), following the primary backend variant
(`src/unnamed/part_000`; the variant in `src/unnamed/part_001` has the same
core logic).  Timestamps are modelled in integer milliseconds (`Date.now()`,
`Date.getTime()`); JS `Number` quantities produced by `Number(...)` are
modelled as rationals; raw transaction records are opaque to the backend and
modelled by an opaque wrapper type.  Effectful upstream calls (RPC balance
fetch, explorer transaction fetch) are modelled by passing in the observable
outcome of each call as an explicit environment value.
-/

namespace GravityPulse

/-- A raw transaction record as returned by the Chainscan-style explorer.
The backend never inspects its fields (it only slices/reverses the list),
so it is modelled opaquely. -/
structure Tx where
  raw : Nat
deriving DecidableEq

/-- A token holding `{name, symbol, balance}` (spec data model); the core
fetcher never populates these. -/
structure Token where
  name : String
  symbol : String
  balance : ℚ
deriving DecidableEq

/-- An achievement badge entry as produced by `computeAchievements`:
`{id, title, desc, earned}`. -/
structure Achievement where
  id : String
  title : String
  desc : String
  earned : Bool
deriving DecidableEq

/-- A catalog entry of the fixed badge list (`all` in `computeAchievements`):
`{id, title, desc}` without an `earned` flag. -/
structure BadgeDef where
  id : String
  title : String
  desc : String
deriving DecidableEq

/-- The cached unit of work: the object built by `fetchOnChainData`, possibly
extended with `achievements` by the handlers.  `holdDays` is an optional field
(`walletData.holdDays || 0`) that the fetcher never populates; `lastUpdated`
is an epoch-milliseconds timestamp. -/
structure WalletSnapshot where
  address : String
  nativeBalance : ℚ
  tokens : List Token
  transactions : List Tx
  totalTransactions : ℕ
  usdValue : ℚ
  lastUpdated : ℤ
  holdDays : Option ℚ
  achievements : List Achievement
deriving DecidableEq

/-- Whether a character matches the regex character class `[a-fA-F0-9]`. -/
def isHexClassChar (c : Char) : Bool :=
  (('a' ≤ c && c ≤ 'f') || ('A' ≤ c && c ≤ 'F')) || ('0' ≤ c && c ≤ '9')

/-- `isValidAddress(addr)`: the regex test `/^0x[a-fA-F0-9]{40}$/.test(addr)`
(part_000 line 65, identical in part_001): the whole string is the two-char
prefix `0x` followed by exactly 40 characters of the class `[a-fA-F0-9]`. -/
def isValidAddress (addr : String) : Bool :=
  let cs := addr.data
  cs.take 2 == ['0', 'x'] && ((cs.drop 2).length == 40 && (cs.drop 2).all isHexClassChar)

/-- The address-grammar contract as the spec words it: a `0x` prefix followed
by exactly 40 hexadecimal characters, hex digits accepted in either case. -/
def validAddressSpec (s : String) : Prop :=
  ∃ t : List Char, s.data = '0' :: 'x' :: t ∧ t.length = 40 ∧
    ∀ c ∈ t, ('0' ≤ c ∧ c ≤ '9') ∨ ('a' ≤ c ∧ c ≤ 'f') ∨ ('A' ≤ c ∧ c ≤ 'F')

/-- `computeAchievements(walletData)` (part_000 lines 70-100): push an entry
with `earned: true` for each satisfied rule, then map the fixed six-entry
catalog, merging the earned flag via `achievements.find(x => x.id === a.id)`.
JS `(x || 0)` on a possibly-absent numeric field is `Option.getD 0`. -/
def computeAchievements (w : WalletSnapshot) : List Achievement :=
  let achievements : List Achievement :=
    (if 1 ≤ w.totalTransactions then
      [{ id := "first_steps", title := "First Steps",
         desc := "Made first transaction", earned := true }] else []) ++
    (if (30 : ℚ) ≤ w.holdDays.getD 0 then
      [{ id := "diamond_hands", title := "Diamond Hands",
         desc := "Held tokens 30+ days", earned := true }] else []) ++
    (if 100 ≤ w.totalTransactions then
      [{ id := "active_trader", title := "Active Trader",
         desc := "100+ transactions", earned := true }] else []) ++
    (if (10000 : ℚ) ≤ w.nativeBalance then
      [{ id := "whale_status", title := "Whale Status",
         desc := "Hold 10,000+ FOGO", earned := true }] else [])
  let all : List BadgeDef :=
    [ { id := "first_steps", title := "First Steps", desc := "Made first transaction" },
      { id := "diamond_hands", title := "Diamond Hands", desc := "Held tokens 30+ days" },
      { id := "active_trader", title := "Active Trader", desc := "100+ transactions" },
      { id := "whale_status", title := "Whale Status", desc := "Hold 10,000+ FOGO" },
      { id := "sniper", title := "Sniper", desc := "Early token adopter" },
      { id := "gravity_king", title := "Gravity King", desc := "Top 100 holder" } ]
  all.map fun a =>
    { id := a.id, title := a.title, desc := a.desc,
      earned := (achievements.find? fun x => x.id == a.id).isSome }

/-- Outcome of the RPC balance sub-fetch (`provider.getBalance` wrapped in
try/catch): the provider may be unconfigured (`provider === null`), the call
may throw, or it yields a balance already converted by
`Number(ethers.formatEther(...))`. -/
inductive RpcOutcome where
  | noProvider
  | error
  | ok (bal : ℚ)
deriving DecidableEq

/-- Outcome of the explorer transaction sub-fetch
(`axios.get(txListUrl).catch(() => null)`): the request may fail (caught to
`null`), the response may carry no `data`, `data.result` may not be an array,
or it is an array of raw transaction records. -/
inductive ExplorerTxOutcome where
  | fetchFailed
  | noData
  | nonArrayResult
  | arrayResult (txs : List Tx)
deriving DecidableEq

/-- The observable outcomes of the upstream calls made during one
`fetchOnChainData` run, plus the wall-clock time (`new Date()`), passed
explicitly in place of the ambient I/O. -/
structure FetchEnv where
  rpc : RpcOutcome
  explorerTx : ExplorerTxOutcome
  nowMs : ℤ
deriving DecidableEq

/-- JS `list.slice(-n)`: the suffix of the last `n` elements (the whole list
when it is shorter than `n`). -/
def jsSliceLast (n : ℕ) (l : List α) : List α :=
  l.drop (l.length - n)

/-- `fetchOnChainData(address)` (part_000 lines 128-185): start from the
default snapshot, overwrite `nativeBalance` when the RPC sub-fetch succeeds,
overwrite `transactions`/`totalTransactions` when the explorer returns an
array `result` (`result.slice(-100).reverse()` and `result.length`), leave
`tokens` untouched (the token sub-fetch at lines 166-178 parses its response
but never assigns to `result.tokens`), and set
`usdValue = nativeBalance * 0.0`. -/
def fetchOnChainData (env : FetchEnv) (address : String) : WalletSnapshot :=
  let nativeBalance : ℚ :=
    match env.rpc with
    | .ok bal => bal
    | _ => 0
  let txFields : List Tx × ℕ :=
    match env.explorerTx with
    | .arrayResult txs => ((jsSliceLast 100 txs).reverse, txs.length)
    | _ => ([], 0)
  { address := address
    nativeBalance := nativeBalance
    tokens := []
    transactions := txFields.1
    totalTransactions := txFields.2
    usdValue := nativeBalance * 0
    lastUpdated := env.nowMs
    holdDays := none
    achievements := [] }

/-- A row of the Supabase `wallets` table: `{address, payload, updated_at}`. -/
structure CacheRow where
  address : String
  payload : WalletSnapshot
  updated_at : ℤ
deriving DecidableEq

/-- The `wallets` table, as a list of rows keyed by `address`. -/
abbrev Store := List CacheRow

/-- JS `String.prototype.toLowerCase()`: lower-case every character. -/
def jsToLowerCase (s : String) : String :=
  ⟨s.data.map Char.toLower⟩

/-- `getCachedWallet(address)` (part_000 lines 103-116): select the row whose
`address` equals `address.toLowerCase()`; no row (or a store error) yields
`null`. -/
def getCachedWallet (store : Store) (address : String) : Option CacheRow :=
  store.find? fun r => r.address == jsToLowerCase address

/-- `upsertCachedWallet(address, payload)` (part_000 lines 118-125): upsert
`{address: address.toLowerCase(), payload, updated_at: now}` with
`onConflict: "address"` — insert-or-replace keyed by the normalized
address. -/
def upsertCachedWallet (store : Store) (address : String)
    (payload : WalletSnapshot) (nowMs : ℤ) : Store :=
  { address := jsToLowerCase address, payload := payload, updated_at := nowMs } ::
    store.filter fun r => r.address ≠ jsToLowerCase address

/-- The handler's snapshot age in seconds:
`(Date.now() - updatedAt.getTime()) / 1000` (part_000 line 205). -/
def ageSec (nowMs updatedMs : ℤ) : ℚ :=
  ((nowMs - updatedMs : ℤ) : ℚ) / 1000

/-- The freshness check of the overview handler: `ageSec < 60`
(part_000 line 206, part_001 line 171). -/
def isFresh (nowMs updatedMs : ℤ) : Bool :=
  decide (ageSec nowMs updatedMs < 60)

/-- Result of the wallet-overview endpoint: a 400 on an invalid address, or a
JSON snapshot together with its `cached` flag. -/
inductive OverviewResult where
  | invalidAddress
  | ok (payload : WalletSnapshot) (cached : Bool)
deriving DecidableEq

/-- The fall-through path of the overview handler on a cache miss or a stale
row (part_000 lines 215-224): fetch on-chain data, attach computed
achievements (`chainData.achievements = computeAchievements(chainData)`),
upsert the whole object into the cache, and respond
`{...chainData, cached: false}`. -/
def overviewFreshPath (env : FetchEnv) (store : Store) (address : String)
    (nowMs : ℤ) : OverviewResult × Store :=
  let fetched := fetchOnChainData env address
  let chainData := { fetched with achievements := computeAchievements fetched }
  (.ok chainData false, upsertCachedWallet store address chainData nowMs)

/-- `GET /api/wallet/:address/overview` (part_000 lines 195-229; the
`GET /api/wallet/:address` handler in part_001 lines 162-187 is the same
logic): validate the address; on a cached row younger than 60 seconds serve
the cached payload with `cached = true` and `achievements` recomputed; else
take the fresh path.  Returns the response together with the store after the
request. -/
def overviewHandler (env : FetchEnv) (store : Store) (address : String)
    (nowMs : ℤ) : OverviewResult × Store :=
  if isValidAddress address then
    match getCachedWallet store address with
    | some cache =>
        if isFresh nowMs cache.updated_at then
          (.ok { cache.payload with
                   achievements := computeAchievements cache.payload } true,
           store)
        else overviewFreshPath env store address nowMs
    | none => overviewFreshPath env store address nowMs
  else (.invalidAddress, store)

/-- Result of the token-holdings endpoint. -/
inductive TokensResult where
  | invalidAddress
  | ok (tokens : List Token)
deriving DecidableEq

/-- `GET /api/wallet/:address/tokens` (part_000 lines 254-271): validate the
address; serve `cache.payload.tokens` when a cached row exists (the JS guard
`cache && cache.payload && cache.payload.tokens` always passes for a stored
snapshot, since an empty array is truthy); else fetch fresh, upsert, and
serve the fetched `tokens`. -/
def tokensHandler (env : FetchEnv) (store : Store) (address : String)
    (nowMs : ℤ) : TokensResult × Store :=
  if isValidAddress address then
    match getCachedWallet store address with
    | some cache => (.ok cache.payload.tokens, store)
    | none =>
        let chainData := fetchOnChainData env address
        (.ok chainData.tokens, upsertCachedWallet store address chainData nowMs)
  else (.invalidAddress, store)

/-- The `cached` flag of an overview response, when the response is a 200. -/
def overviewCached : OverviewResult → Option Bool
  | .invalidAddress => none
  | .ok _ c => some c

/-- The snapshot payload of an overview response, when the response is a 200. -/
def overviewPayload : OverviewResult → Option WalletSnapshot
  | .invalidAddress => none
  | .ok p _ => some p

/-- The payloads currently persisted in the `wallets` table. -/
def storedPayloads (store : Store) : List WalletSnapshot :=
  store.map CacheRow.payload

/-- A syntactically valid sample address (`0x` + 40 hex characters). -/
def sampleAddr : String := "0xaaaaaaaaaaaaaaaaaaaaaaaaaaaaaaaaaaaaaaaa"

/-- The same sample account address written with upper-case hex digits. -/
def sampleAddrUpper : String := "0xAAAAAAAAAAAAAAAAAAAAAAAAAAAAAAAAAAAAAAAA"

/-- A sample environment: no RPC provider configured, explorer returning a
two-element transaction array. -/
def sampleEnv : FetchEnv :=
  { rpc := .noProvider, explorerTx := .arrayResult [⟨0⟩, ⟨1⟩], nowMs := 5 }

/-- A sample snapshot used to exercise the cache. -/
def sampleSnap : WalletSnapshot :=
  { address := sampleAddr, nativeBalance := 0, tokens := [],
    transactions := [⟨7⟩], totalTransactions := 3, usdValue := 0,
    lastUpdated := 0, holdDays := none, achievements := [] }

/-! Helper lemmas shared by several verification theorems. -/

/-- The handler's freshness check over rational seconds is equivalent to a
strict integer bound of 60000 on the elapsed milliseconds. -/
theorem isFresh_eq_true_iff (now upd : ℤ) :
    isFresh now upd = true ↔ now - upd < 60000 := by
  unfold isFresh ageSec
  rw [decide_eq_true_eq, div_lt_iff₀ (by norm_num : (0:ℚ) < 1000),
    show (60 : ℚ) * 1000 = ((60000 : ℤ) : ℚ) by norm_num, Int.cast_lt]

/-- Reversing the JS `slice(-n)` suffix is taking the first `n` elements of
the reversed list. -/
theorem jsSliceLast_reverse (n : ℕ) (l : List α) :
    (jsSliceLast n l).reverse = l.reverse.take n := by
  unfold jsSliceLast
  exact List.take_reverse.symm

/-- Looking up an upserted snapshot under any casing with the same
lower-casing finds the freshly written, normalized row. -/
theorem getCachedWallet_upsert (store : Store) (a b : String)
    (snap : WalletSnapshot) (t : ℤ) (h : jsToLowerCase a = jsToLowerCase b) :
    getCachedWallet (upsertCachedWallet store a snap t) b =
      some { address := jsToLowerCase a, payload := snap, updated_at := t } := by
  unfold getCachedWallet upsertCachedWallet
  apply List.find?_cons_of_pos
  simp [h]

/-- `computeAchievements` never reads the `achievements` field of its
argument. -/
theorem computeAchievements_irrel (w : WalletSnapshot) (a : List Achievement) :
    computeAchievements { w with achievements := a } = computeAchievements w := by
  cases w; rfl

/-- The badge ids produced by `computeAchievements`, in order. -/
theorem computeAchievements_map_id (w : WalletSnapshot) :
    (computeAchievements w).map Achievement.id =
      ["first_steps", "diamond_hands", "active_trader", "whale_status",
       "sniper", "gravity_king"] := by
  rfl

/-- Closed form of `computeAchievements`: the fixed six-entry catalog with
each `earned` flag computed from its numeric predicate. -/
theorem computeAchievements_eq_table (w : WalletSnapshot) :
    computeAchievements w =
      [ { id := "first_steps", title := "First Steps", desc := "Made first transaction",
          earned := decide (1 ≤ w.totalTransactions) },
        { id := "diamond_hands", title := "Diamond Hands", desc := "Held tokens 30+ days",
          earned := decide ((30 : ℚ) ≤ w.holdDays.getD 0) },
        { id := "active_trader", title := "Active Trader", desc := "100+ transactions",
          earned := decide (100 ≤ w.totalTransactions) },
        { id := "whale_status", title := "Whale Status", desc := "Hold 10,000+ FOGO",
          earned := decide ((10000 : ℚ) ≤ w.nativeBalance) },
        { id := "sniper", title := "Sniper", desc := "Early token adopter", earned := false },
        { id := "gravity_king", title := "Gravity King", desc := "Top 100 holder",
          earned := false } ] := by
  by_cases h1 : 1 ≤ w.totalTransactions <;>
  by_cases h2 : (30 : ℚ) ≤ w.holdDays.getD 0 <;>
  by_cases h3 : 100 ≤ w.totalTransactions <;>
  by_cases h4 : (10000 : ℚ) ≤ w.nativeBalance <;>
  simp [computeAchievements, h1, h2, h3, h4, List.find?]

/-! Claim theorems. -/

/-- Claim C1: the freshness check accepts a cached row iff strictly fewer
than 60 seconds have elapsed since its stored timestamp (the comparison
`ageSec < 60` over `(now - updated_at) / 1000`); at exactly 60 elapsed
seconds the row is stale and the overview handler takes the refresh path
(responding `cached = false`). -/
theorem freshness_ttl_strict (now upd : ℤ) (env : FetchEnv) (store : Store)
    (addr : String) (snap : WalletSnapshot)
    (hv : isValidAddress addr = true) :
    (isFresh now upd = true ↔ now - upd < 60 * 1000) ∧
    (ageSec now upd = 60 → isFresh now upd = false) ∧
    overviewCached
        (overviewHandler env (upsertCachedWallet store addr snap upd) addr
          (upd + 60 * 1000)).1 = some false := by
  refine ⟨by rw [isFresh_eq_true_iff]; norm_num, ?_, ?_⟩
  · intro h
    unfold isFresh
    rw [h]
    norm_num
  · have hstale : isFresh (upd + 60000) upd = false := by
      rw [Bool.eq_false_iff, Ne, isFresh_eq_true_iff]
      omega
    unfold overviewHandler
    rw [if_pos hv, getCachedWallet_upsert store addr addr snap upd rfl]
    simp [hstale, overviewFreshPath, overviewCached]

/-- Claim C1 witness at concrete inputs. -/
theorem freshness_ttl_strict_witness :
    isValidAddress sampleAddr = true ∧
    ((isFresh 59999 0 = true ↔ (59999 : ℤ) - 0 < 60 * 1000) ∧
     (ageSec 59999 0 = 60 → isFresh 59999 0 = false) ∧
     overviewCached
         (overviewHandler sampleEnv (upsertCachedWallet [] sampleAddr sampleSnap 0)
           sampleAddr (0 + 60 * 1000)).1 = some false) :=
  ⟨by decide,
   freshness_ttl_strict 59999 0 sampleEnv [] sampleAddr sampleSnap (by decide)⟩

/-- Claim C2: when the RPC provider is unconfigured or the balance call
errors, the fetched snapshot carries `nativeBalance = 0`, and the (total)
fetch still completes with a snapshot for the requested address. -/
theorem rpc_failure_yields_zero_balance (env : FetchEnv) (addr : String)
    (h : env.rpc = RpcOutcome.noProvider ∨ env.rpc = RpcOutcome.error) :
    (fetchOnChainData env addr).nativeBalance = 0 ∧
    (fetchOnChainData env addr).address = addr := by
  rcases h with h | h <;> simp [fetchOnChainData, h]

/-- Claim C2 witness at a concrete environment with no RPC provider. -/
theorem rpc_failure_yields_zero_balance_witness :
    (fetchOnChainData sampleEnv sampleAddr).nativeBalance = 0 ∧
    (fetchOnChainData sampleEnv sampleAddr).address = sampleAddr :=
  rpc_failure_yields_zero_balance sampleEnv sampleAddr (Or.inl rfl)

/-- Claim C3: when the explorer call fails, yields no data, or yields a
non-array `result`, the fetched snapshot has `transactions = []` and
`totalTransactions = 0`, and the fetch still completes with a snapshot for
the requested address. -/
theorem explorer_failure_yields_empty_transactions (env : FetchEnv)
    (addr : String)
    (h : env.explorerTx = ExplorerTxOutcome.fetchFailed ∨
         env.explorerTx = ExplorerTxOutcome.noData ∨
         env.explorerTx = ExplorerTxOutcome.nonArrayResult) :
    (fetchOnChainData env addr).transactions = [] ∧
    (fetchOnChainData env addr).totalTransactions = 0 ∧
    (fetchOnChainData env addr).address = addr := by
  rcases h with h | h | h <;> simp [fetchOnChainData, h]

/-- Claim C3 witness at a concrete failed explorer call. -/
theorem explorer_failure_yields_empty_transactions_witness :
    (fetchOnChainData { rpc := .noProvider, explorerTx := .fetchFailed, nowMs := 5 }
        sampleAddr).transactions = [] ∧
    (fetchOnChainData { rpc := .noProvider, explorerTx := .fetchFailed, nowMs := 5 }
        sampleAddr).totalTransactions = 0 ∧
    (fetchOnChainData { rpc := .noProvider, explorerTx := .fetchFailed, nowMs := 5 }
        sampleAddr).address = sampleAddr :=
  explorer_failure_yields_empty_transactions _ sampleAddr (Or.inl rfl)

/-- Claim C4: `computeAchievements` returns exactly the six catalog entries
in fixed order with their static titles and descriptions, where `earned` is
`totalTransactions >= 1` for first_steps, `holdDays >= 30` for diamond_hands
(`holdDays` read with a default of 0 when absent), `totalTransactions >= 100`
for active_trader, `nativeBalance >= 10000` for whale_status, and constantly
false for sniper and gravity_king; as a pure function of the snapshot it is
deterministic and side-effect-free. -/
theorem computeAchievements_catalog (w : WalletSnapshot) :
    computeAchievements w =
      [ { id := "first_steps", title := "First Steps", desc := "Made first transaction",
          earned := decide (1 ≤ w.totalTransactions) },
        { id := "diamond_hands", title := "Diamond Hands", desc := "Held tokens 30+ days",
          earned := decide ((30 : ℚ) ≤ w.holdDays.getD 0) },
        { id := "active_trader", title := "Active Trader", desc := "100+ transactions",
          earned := decide (100 ≤ w.totalTransactions) },
        { id := "whale_status", title := "Whale Status", desc := "Hold 10,000+ FOGO",
          earned := decide ((10000 : ℚ) ≤ w.nativeBalance) },
        { id := "sniper", title := "Sniper", desc := "Early token adopter", earned := false },
        { id := "gravity_king", title := "Gravity King", desc := "Top 100 holder",
          earned := false } ] :=
  computeAchievements_eq_table w

/-- Claim C5: on a successful explorer fetch the snapshot stores the first
100 entries of the reversed (most-recent-first) upstream list — hence at
most 100 records — while `totalTransactions` is the full count reported by
the upstream, which can exceed the stored length. -/
theorem transactions_capped_most_recent_first (env : FetchEnv) (addr : String)
    (txs : List Tx) (h : env.explorerTx = ExplorerTxOutcome.arrayResult txs) :
    (fetchOnChainData env addr).transactions = txs.reverse.take 100 ∧
    (fetchOnChainData env addr).transactions.length ≤ 100 ∧
    (fetchOnChainData env addr).totalTransactions = txs.length ∧
    (fetchOnChainData env addr).transactions.length ≤
      (fetchOnChainData env addr).totalTransactions := by
  have htx : (fetchOnChainData env addr).transactions = txs.reverse.take 100 := by
    simp [fetchOnChainData, h, jsSliceLast_reverse]
  have htot : (fetchOnChainData env addr).totalTransactions = txs.length := by
    simp [fetchOnChainData, h]
  refine ⟨htx, ?_, htot, ?_⟩
  · rw [htx]; exact List.length_take_le 100 txs.reverse
  · rw [htx, htot]
    simp [List.length_take]

/-- Claim C5 witness at a concrete successful explorer fetch. -/
theorem transactions_capped_most_recent_first_witness :
    (fetchOnChainData sampleEnv sampleAddr).transactions =
      ([⟨0⟩, ⟨1⟩] : List Tx).reverse.take 100 ∧
    (fetchOnChainData sampleEnv sampleAddr).transactions.length ≤ 100 ∧
    (fetchOnChainData sampleEnv sampleAddr).totalTransactions =
      ([⟨0⟩, ⟨1⟩] : List Tx).length ∧
    (fetchOnChainData sampleEnv sampleAddr).transactions.length ≤
      (fetchOnChainData sampleEnv sampleAddr).totalTransactions :=
  transactions_capped_most_recent_first sampleEnv sampleAddr [⟨0⟩, ⟨1⟩] rfl

/-- The character-class check agrees with the spec-side description of a hex
digit in either case. -/
theorem isHexClassChar_iff (c : Char) :
    isHexClassChar c = true ↔
      ('0' ≤ c ∧ c ≤ '9') ∨ ('a' ≤ c ∧ c ≤ 'f') ∨ ('A' ≤ c ∧ c ≤ 'F') := by
  unfold isHexClassChar
  simp only [Bool.or_eq_true, Bool.and_eq_true, decide_eq_true_eq]
  tauto

/-- Claim C6: writing a snapshot to the cache and reading it back through the
overview handler before the TTL expires yields `cached = true` with the
written snapshot's `address`, `nativeBalance` and `transactions`. -/
theorem cache_roundtrip_overview (env : FetchEnv) (store : Store)
    (addr : String) (snap : WalletSnapshot) (t0 t1 : ℤ)
    (hv : isValidAddress addr = true)
    (hfresh : isFresh t1 t0 = true) :
    overviewCached
        (overviewHandler env (upsertCachedWallet store addr snap t0) addr t1).1 =
      some true ∧
    Option.map WalletSnapshot.address
        (overviewPayload
          (overviewHandler env (upsertCachedWallet store addr snap t0) addr t1).1) =
      some snap.address ∧
    Option.map WalletSnapshot.nativeBalance
        (overviewPayload
          (overviewHandler env (upsertCachedWallet store addr snap t0) addr t1).1) =
      some snap.nativeBalance ∧
    Option.map WalletSnapshot.transactions
        (overviewPayload
          (overviewHandler env (upsertCachedWallet store addr snap t0) addr t1).1) =
      some snap.transactions := by
  unfold overviewHandler
  rw [if_pos hv, getCachedWallet_upsert store addr addr snap t0 rfl]
  simp [hfresh, overviewCached, overviewPayload]

/-- Claim C6 witness: a concrete snapshot written at time 0 and read back at
time 1000 ms. -/
theorem cache_roundtrip_overview_witness :
    overviewCached
        (overviewHandler sampleEnv (upsertCachedWallet [] sampleAddr sampleSnap 0)
          sampleAddr 1000).1 = some true ∧
    Option.map WalletSnapshot.address
        (overviewPayload
          (overviewHandler sampleEnv (upsertCachedWallet [] sampleAddr sampleSnap 0)
            sampleAddr 1000).1) = some sampleSnap.address ∧
    Option.map WalletSnapshot.nativeBalance
        (overviewPayload
          (overviewHandler sampleEnv (upsertCachedWallet [] sampleAddr sampleSnap 0)
            sampleAddr 1000).1) = some sampleSnap.nativeBalance ∧
    Option.map WalletSnapshot.transactions
        (overviewPayload
          (overviewHandler sampleEnv (upsertCachedWallet [] sampleAddr sampleSnap 0)
            sampleAddr 1000).1) = some sampleSnap.transactions :=
  cache_roundtrip_overview sampleEnv [] sampleAddr sampleSnap 0 1000 (by decide)
    ((isFresh_eq_true_iff 1000 0).mpr (by decide))

/-- Claim C7: the address validator accepts a string iff it is `0x` followed
by exactly 40 hexadecimal characters, hex digits in either case. -/
theorem isValidAddress_iff_spec (s : String) :
    isValidAddress s = true ↔ validAddressSpec s := by
  unfold isValidAddress validAddressSpec
  simp only [Bool.and_eq_true, beq_iff_eq, List.all_eq_true]
  constructor
  · rintro ⟨h2, h40, hall⟩
    refine ⟨s.data.drop 2, ?_, by simpa using h40, ?_⟩
    · conv_lhs => rw [← List.take_append_drop 2 s.data]
      rw [h2]
      rfl
    · intro c hc
      have := hall c hc
      rw [isHexClassChar_iff] at this
      tauto
  · rintro ⟨t, hdata, h40, hall⟩
    rw [hdata]
    refine ⟨rfl, by simpa using h40, ?_⟩
    intro c hc
    rw [isHexClassChar_iff]
    have := hall c (by simpa using hc)
    tauto

/-- Claim C8: the cache stores the address key lower-cased and lookups
lower-case the queried address, so a snapshot written under one casing is
found under any other casing with the same normalization, and the row found
carries the normalized key. -/
theorem cache_key_normalized (store : Store) (a b : String)
    (snap : WalletSnapshot) (t : ℤ) (h : jsToLowerCase a = jsToLowerCase b) :
    getCachedWallet (upsertCachedWallet store a snap t) b =
      some { address := jsToLowerCase a, payload := snap, updated_at := t } :=
  getCachedWallet_upsert store a b snap t h

/-- Claim C8 witness: a snapshot written under the upper-case spelling of the
sample address is found by a lookup under the lower-case spelling. -/
theorem cache_key_normalized_witness :
    getCachedWallet (upsertCachedWallet [] sampleAddrUpper sampleSnap 3) sampleAddr =
      some { address := jsToLowerCase sampleAddrUpper, payload := sampleSnap,
             updated_at := 3 } :=
  cache_key_normalized [] sampleAddrUpper sampleAddr sampleSnap 3 (by decide)

/-- Claim C9 counterexample: on a cache-miss overview request the handler
upserts the payload with its computed achievements inside, so earned/unearned
badge state is in fact persisted in the store. -/
theorem achievements_persisted_counterexample :
    List.map (List.map Achievement.id)
        (List.map WalletSnapshot.achievements
          (storedPayloads (overviewHandler sampleEnv [] sampleAddr 0).2)) =
      [["first_steps", "diamond_hands", "active_trader", "whale_status",
        "sniper", "gravity_king"]] ∧
    List.map (List.map Achievement.earned)
        (List.map WalletSnapshot.achievements
          (storedPayloads (overviewHandler sampleEnv [] sampleAddr 0).2)) =
      [[true, false, false, false, false, false]] := by
  decide

/-- Claim C9 (amended): every 200 response of the overview handler — cached
or fresh — carries achievements equal to `computeAchievements` of the served
snapshot's own metrics, and they are always the full six-badge catalog in
order (even though the fresh path also persists the computed flags in the
cached payload). -/
theorem achievements_recomputed_full_catalog (env : FetchEnv) (store : Store)
    (addr : String) (now : ℤ) (p : WalletSnapshot) (c : Bool)
    (h : (overviewHandler env store addr now).1 = OverviewResult.ok p c) :
    p.achievements = computeAchievements p ∧
    p.achievements.map Achievement.id =
      ["first_steps", "diamond_hands", "active_trader", "whale_status",
       "sniper", "gravity_king"] := by
  have hp : ∃ w : WalletSnapshot,
      p = { w with achievements := computeAchievements w } := by
    unfold overviewHandler at h
    split at h
    · split at h
      · rename_i cache _
        split at h
        · simp only [Prod.fst] at h
          rw [OverviewResult.ok.injEq] at h
          exact ⟨cache.payload, h.1.symm⟩
        · unfold overviewFreshPath at h
          simp only [Prod.fst] at h
          rw [OverviewResult.ok.injEq] at h
          exact ⟨fetchOnChainData env addr, h.1.symm⟩
      · unfold overviewFreshPath at h
        simp only [Prod.fst] at h
        rw [OverviewResult.ok.injEq] at h
        exact ⟨fetchOnChainData env addr, h.1.symm⟩
    · simp at h
  obtain ⟨w, rfl⟩ := hp
  refine ⟨?_, ?_⟩
  · simp [computeAchievements_irrel]
  · simpa using computeAchievements_map_id w

/-- Claim C9 witness: a concrete cache-miss request whose response achievements
equal a fresh recomputation and list the full catalog. -/
theorem achievements_recomputed_full_catalog_witness :
    WalletSnapshot.achievements
        { fetchOnChainData sampleEnv sampleAddr with
            achievements := computeAchievements (fetchOnChainData sampleEnv sampleAddr) } =
      computeAchievements
        { fetchOnChainData sampleEnv sampleAddr with
            achievements := computeAchievements (fetchOnChainData sampleEnv sampleAddr) } ∧
    List.map Achievement.id
        (WalletSnapshot.achievements
          { fetchOnChainData sampleEnv sampleAddr with
              achievements := computeAchievements (fetchOnChainData sampleEnv sampleAddr) }) =
      ["first_steps", "diamond_hands", "active_trader", "whale_status",
       "sniper", "gravity_king"] :=
  achievements_recomputed_full_catalog sampleEnv [] sampleAddr 0 _ false rfl

/-- Claim C10: the core fetcher's token sub-fetch never populates the token
list, so every fetched snapshot has `tokens = []`, and a cache-miss request to
the token-holdings endpoint answers with an empty token list. -/
theorem tokens_never_populated :
    (∀ env addr, (fetchOnChainData env addr).tokens = []) ∧
    (∀ env store addr now, isValidAddress addr = true →
      getCachedWallet store addr = none →
      (tokensHandler env store addr now).1 = TokensResult.ok []) := by
  constructor
  · intro env addr
    rfl
  · intro env store addr now hv hmiss
    unfold tokensHandler
    rw [if_pos hv, hmiss]
    rfl

/-- Claim C10 witness: a concrete fetch and a concrete cache-miss token
request, both yielding an empty token list. -/
theorem tokens_never_populated_witness :
    (fetchOnChainData sampleEnv sampleAddr).tokens = [] ∧
    (tokensHandler sampleEnv [] sampleAddr 0).1 = TokensResult.ok [] :=
  ⟨tokens_never_populated.1 sampleEnv sampleAddr,
   tokens_never_populated.2 sampleEnv [] sampleAddr 0 (by decide) rfl⟩

end GravityPulse
